import Mathlib

/-!
Verification of the snake-vscode game core (src/src/snakeGame.ts) against its
natural-language specification.  The TypeScript class `SnakeGame` is embedded
shallowly: the mutable fields of the class become a `GameState` record, each
method becomes a pure function from state to state, and the host-editor
document is a list of line strings.  JavaScript numbers holding grid
coordinates are embedded as `Int` (all arithmetic on them in the source is
integer arithmetic), counters that only ever grow (`score`, `pointsPerFood`)
as `Nat`.  `Math.random()` draws inside `spawnFood` are abstracted as an
oracle `cands : Nat → Position` giving the candidate cell produced by each
sampling attempt.  Presentation calls (`render`, `updateStatusBar`,
`scrollToSnake`, notifications, decorations) do not touch the game state and
are dropped, except that the deferred hidden-line-expiry callback records
whether it requested a render as an explicit `Bool`.
-/

namespace SnakeVSCode

/-- One character cell of the document grid: `interface Position` of
snakeGame.ts, with `line` and `char` as JS integer numbers. -/
structure Position where
  line : Int
  char : Int
deriving DecidableEq

/-- The four headings of the snake (`direction` field). -/
inductive Direction where
  | up
  | down
  | left
  | right
deriving DecidableEq

/-- The heading directly opposite a given heading (the `opposites` table of
the input router). -/
def Direction.opposite : Direction → Direction
  | .up => .down
  | .down => .up
  | .left => .right
  | .right => .left

/-- The host document, reduced to what the game reads: the list of line
texts.  `lineCount` is the list length; `lineAt` is the text of a line. -/
structure Document where
  lines : List String
deriving DecidableEq

/-- `editor.document.lineCount` as an integer. -/
def Document.lineCount (d : Document) : Int :=
  (d.lines.length : Int)

/-- `editor.document.lineAt(i).text`.  The host throws on an out-of-range
index; the game only calls this with `0 ≤ i < lineCount`, and on that range
this embedding agrees with the host (out of range it returns the empty
string / line 0 harmlessly). -/
def Document.lineAt (d : Document) (i : Int) : String :=
  d.lines.getD i.toNat ""

/-- `lineText[i]`: character of a string at an integer index, used only under
the guard `0 ≤ i < lineText.length`. -/
def charAt (s : String) (i : Int) : Char :=
  s.toList.getD i.toNat ' '

/-- The game state: the mutable fields of class `SnakeGame` that the game
logic reads or writes.  `singleCommentTokens` embeds `commentPatterns.single`:
each regular expression there is of the shape token-then-`.*`, so it is
represented by its start token (for example the two-character token of the
C-family line comment), and its `match.index` is the first index at which the
token occurs in the line. -/
structure GameState where
  doc : Document
  maxColumn : Int
  snake : List Position
  direction : Direction
  food : Option Position
  score : Nat
  pointsPerFood : Nat
  isRunning : Bool
  isPaused : Bool
  hiddenLines : List Int
  singleCommentTokens : List String
deriving DecidableEq

/-- `calculatePoints`: `pointsPerFood = Math.max(1, Math.floor(lineCount / 10))`,
computed from the document line count. -/
def calculatePoints (lineCount : Nat) : Nat :=
  max 1 (lineCount / 10)

/-- `calculateViewportWidth`: `maxColumn = Math.min(150, Math.max(80, end.character + 20))`
when a visible range exists, `120` otherwise. -/
def calculateViewportWidth (visibleEndChar : Option Int) : Int :=
  match visibleEndChar with
  | some e => min 150 (max 80 (e + 20))
  | none => 120

/-- `checkCollision(pos)`: whether some cell of the snake has the same line
and char as `pos`. -/
def checkCollision (snake : List Position) (pos : Position) : Bool :=
  snake.any (fun p => decide (p.line = pos.line) && decide (p.char = pos.char))

/-- `getNewHead(head)` of src/src/snakeGame.ts: advance one cell in the
current direction, wrapping lines at the grid edges and columns at
`maxColumn`; on a vertical move the column is clamped to the new line's
length and to `maxColumn - 1`. -/
def getNewHead (doc : Document) (maxColumn : Int) (dir : Direction) (head : Position) : Position :=
  match dir with
  | .up =>
    let l0 := head.line - 1
    let l := if l0 < 0 then doc.lineCount - 1 else l0
    let upLineLength : Int := ((doc.lineAt l).length : Int)
    { line := l, char := min head.char (min upLineLength (maxColumn - 1)) }
  | .down =>
    let l0 := head.line + 1
    let l := if l0 ≥ doc.lineCount then 0 else l0
    let downLineLength : Int := ((doc.lineAt l).length : Int)
    { line := l, char := min head.char (min downLineLength (maxColumn - 1)) }
  | .left =>
    let c := head.char - 1
    { line := head.line, char := if c < 0 then maxColumn - 1 else c }
  | .right =>
    let c := head.char + 1
    { line := head.line, char := if c ≥ maxColumn then 0 else c }

/-- `getNewHead(head)` of the older build variant (src/unnamed/part_000,
first bundle): vertical moves keep the column; moving left past column 0
wraps to the end of the previous line; moving right past the current line's
length plus five wraps to column 0 of the next line. -/
def getNewHeadV0 (doc : Document) (dir : Direction) (head : Position) : Position :=
  match dir with
  | .up =>
    let l0 := head.line - 1
    { line := if l0 < 0 then doc.lineCount - 1 else l0, char := head.char }
  | .down =>
    let l0 := head.line + 1
    { line := if l0 ≥ doc.lineCount then 0 else l0, char := head.char }
  | .left =>
    let c := head.char - 1
    if c < 0 then
      let l0 := head.line - 1
      let l := if l0 < 0 then doc.lineCount - 1 else l0
      let lineLength : Int := ((doc.lineAt l).length : Int)
      { line := l, char := max 0 lineLength }
    else
      { line := head.line, char := c }
  | .right =>
    let currentLineLength : Int := ((doc.lineAt head.line).length : Int)
    let c := head.char + 1
    if c > currentLineLength + 5 then
      let l0 := head.line + 1
      { line := if l0 ≥ doc.lineCount then 0 else l0, char := 0 }
    else
      { line := head.line, char := c }

/-- Whether the token list starts the character list. -/
def startsWithChars : List Char → List Char → Bool
  | [], _ => true
  | _ :: _, [] => false
  | a :: as, b :: bs => decide (a = b) && startsWithChars as bs

/-- First index at which a token occurs in a character list, if any: the
`match.index` of a token-then-dot-star regular expression. -/
def firstOccIdx (tok : List Char) : List Char → Option Nat
  | [] => if tok.isEmpty then some 0 else none
  | c :: rest =>
    if startsWithChars tok (c :: rest) then some 0
    else
      match firstOccIdx tok rest with
      | some n => some (n + 1)
      | none => none

/-- `isInComment(lineText, charPos)`: some single-line comment pattern
matches the line and `charPos` is at or after the comment start. -/
def isInComment (tokens : List String) (lineText : String) (charPos : Int) : Bool :=
  tokens.any fun tok =>
    match firstOccIdx tok.toList lineText.toList with
    | some idx => decide ((idx : Int) ≤ charPos)
    | none => false

/-- `lineText.trim().length === 0`: the trimmed text is empty exactly when
every character of the line is whitespace.  (Embedded directly as an
all-whitespace check because it is only ever compared with zero; the JS
whitespace set and `Char.isWhitespace` agree on the ASCII characters.) -/
def isBlank (s : String) : Bool :=
  s.toList.all (fun c => c.isWhitespace)

/-- `Set.add` on the hidden-lines set, embedded as a duplicate-free list. -/
def hiddenAdd (hs : List Int) (l : Int) : List Int :=
  if l ∈ hs then hs else l :: hs

/-- `checkTextCollision(pos)`: on an in-range line whose trimmed text is
nonempty, if the cell at `pos.char` holds a non-whitespace character, award
the comment bonus when inside a single-line comment and add the line to the
hidden-lines set.  (The deferred removal it schedules is `hiddenLineExpiry`
below.) -/
def checkTextCollision (s : GameState) (pos : Position) : GameState :=
  if pos.line < 0 ∨ pos.line ≥ s.doc.lineCount then s
  else
    let lineText := s.doc.lineAt pos.line
    if isBlank lineText = true then s
    else if 0 ≤ pos.char ∧ pos.char < (lineText.length : Int) ∧
            (charAt lineText pos.char).isWhitespace = false then
      let s1 :=
        if isInComment s.singleCommentTokens lineText pos.char then
          { s with score := s.score + s.pointsPerFood / 2 }
        else s
      { s1 with hiddenLines := hiddenAdd s1.hiddenLines pos.line }
    else s

/-- The score increment `checkTextCollision` applies at a cell: the comment
bonus `floor(pointsPerFood / 2)` exactly when the cell holds non-whitespace
text inside a recognized single-line comment, zero otherwise. -/
def commentBonus (doc : Document) (tokens : List String) (ppf : Nat) (pos : Position) : Nat :=
  if pos.line < 0 ∨ pos.line ≥ doc.lineCount then 0
  else
    let lineText := doc.lineAt pos.line
    if isBlank lineText = true then 0
    else if 0 ≤ pos.char ∧ pos.char < (lineText.length : Int) ∧
            (charAt lineText pos.char).isWhitespace = false then
      if isInComment tokens lineText pos.char then
        ppf / 2
      else 0
    else 0

/-- The rejection-sampling loop of `spawnFood`: try the candidate cells in
order, return the first that does not collide with the snake, and the
fallback when every candidate collides. -/
def spawnFoodLoop (snake : List Position) (fallback : Position) : List Position → Position
  | [] => fallback
  | c :: rest =>
    if checkCollision snake c then spawnFoodLoop snake fallback rest else c

/-- The deterministic fallback cell of `spawnFood`:
`pos(Math.floor(lineCount / 2), 10)`. -/
def spawnFoodFallback (doc : Document) : Position :=
  { line := doc.lineCount / 2, char := 10 }

/-- `spawnFood()`: at most 100 sampling attempts (`while (attempts < 100)`),
each proposing the candidate cell `cands i`; the first candidate free of the
snake becomes the food, and after 100 failures the fallback cell does. -/
def spawnFood (doc : Document) (snake : List Position) (cands : Nat → Position) : Position :=
  spawnFoodLoop snake (spawnFoodFallback doc) ((List.range 100).map cands)

/-- `gameOver()`, restricted to the game state: `isRunning = false` (the rest
of the method stops the ticker and releases presentation resources). -/
def gameOver (s : GameState) : GameState :=
  { s with isRunning := false }

/-- `update()`: one tick.  Do nothing unless running and not paused; compute
the candidate head; on self-collision terminate; otherwise unshift the head,
then either capture food (score up by `pointsPerFood`, respawn food) or pop
the tail, and finally run the text-collision check at the new head. -/
def update (cands : Nat → Position) (s : GameState) : GameState :=
  if s.isRunning = false ∨ s.isPaused = true then s
  else
    let head := s.snake.headD { line := 0, char := 0 }
    let newHead := getNewHead s.doc s.maxColumn s.direction head
    if checkCollision s.snake newHead then gameOver s
    else
      let s1 : GameState := { s with snake := newHead :: s.snake }
      let s2 : GameState :=
        match s1.food with
        | some f =>
          if newHead = f then
            { s1 with
              score := s1.score + s1.pointsPerFood,
              food := some (spawnFood s1.doc s1.snake cands) }
          else
            { s1 with snake := s1.snake.dropLast }
        | none => { s1 with snake := s1.snake.dropLast }
      checkTextCollision s2 newHead

/-- `togglePause()`: a no-op unless running, otherwise flip the pause flag. -/
def togglePause (s : GameState) : GameState :=
  if s.isRunning = false then s else { s with isPaused := !s.isPaused }

/-- The four directional command handlers of `setupKeyBindings` in
src/src/snakeGame.ts, as one function of the requested heading: set the
heading when running, not paused, and the current heading is not the exact
opposite of the request; otherwise a no-op. -/
def changeDirection (s : GameState) (d : Direction) : GameState :=
  if s.isRunning = true ∧ s.isPaused = false ∧ s.direction ≠ d.opposite then
    { s with direction := d }
  else s

/-- The deferred callback `checkTextCollision` schedules for one second
later: delete the line from the hidden-lines set and call `render()`.  The
second component records that a render (presentation refresh) was
requested; the source callback requests one unconditionally. -/
def hiddenLineExpiry (line : Int) (s : GameState) : GameState × Bool :=
  ({ s with hiddenLines := s.hiddenLines.filter (fun l => decide (l ≠ line)) }, true)

/-- A paused session whose candidate head cell (moving left from the head)
coincides with the second body cell. -/
def pausedCollisionState : GameState :=
  { doc := ⟨["hello"]⟩, maxColumn := 120,
    snake := [⟨0, 5⟩, ⟨0, 4⟩], direction := .left,
    food := none, score := 0, pointsPerFood := 1,
    isRunning := true, isPaused := true,
    hiddenLines := [], singleCommentTokens := [] }

/-- The same session as `pausedCollisionState`, but not paused. -/
def runCollisionState : GameState :=
  { doc := ⟨["hello"]⟩, maxColumn := 120,
    snake := [⟨0, 5⟩, ⟨0, 4⟩], direction := .left,
    food := none, score := 0, pointsPerFood := 1,
    isRunning := true, isPaused := false,
    hiddenLines := [], singleCommentTokens := [] }

/-- A running session on a 20-line document whose first line is a C-family
line comment; the food sits on a comment character one cell left of the
head. -/
def commentCaptureState : GameState :=
  { doc := ⟨"//abcdefgh" :: List.replicate 19 ""⟩, maxColumn := 120,
    snake := [⟨0, 5⟩], direction := .left,
    food := some ⟨0, 4⟩, score := 0, pointsPerFood := 2,
    isRunning := true, isPaused := false,
    hiddenLines := [], singleCommentTokens := ["//"] }

/-- A running session about to capture food on a plain text cell (no comment
patterns registered). -/
def plainCaptureState : GameState :=
  { doc := ⟨"abcdefghij" :: List.replicate 19 ""⟩, maxColumn := 120,
    snake := [⟨0, 5⟩], direction := .left,
    food := some ⟨0, 4⟩, score := 0, pointsPerFood := 2,
    isRunning := true, isPaused := false,
    hiddenLines := [], singleCommentTokens := [] }

/-- A terminated session that still has line 2 in its hidden-lines set. -/
def terminatedHiddenState : GameState :=
  { doc := ⟨["aaa", "bbb", "ccc"]⟩, maxColumn := 120,
    snake := [⟨0, 1⟩], direction := .left,
    food := none, score := 0, pointsPerFood := 1,
    isRunning := false, isPaused := false,
    hiddenLines := [2], singleCommentTokens := [] }

theorem hiddenAdd_mem (hs : List Int) (x l : Int) (h : l ∈ hiddenAdd hs x) :
    l ∈ hs ∨ l = x := by
  unfold hiddenAdd at h
  split at h
  · exact Or.inl h
  · rcases List.mem_cons.mp h with h | h
    · exact Or.inr h
    · exact Or.inl h

theorem checkTextCollision_preserves (s : GameState) (pos : Position) :
    (checkTextCollision s pos).doc = s.doc ∧
    (checkTextCollision s pos).maxColumn = s.maxColumn ∧
    (checkTextCollision s pos).snake = s.snake ∧
    (checkTextCollision s pos).direction = s.direction ∧
    (checkTextCollision s pos).food = s.food ∧
    (checkTextCollision s pos).pointsPerFood = s.pointsPerFood ∧
    (checkTextCollision s pos).isRunning = s.isRunning ∧
    (checkTextCollision s pos).isPaused = s.isPaused ∧
    (checkTextCollision s pos).singleCommentTokens = s.singleCommentTokens := by
  simp only [checkTextCollision]
  repeat' split
  all_goals exact ⟨rfl, rfl, rfl, rfl, rfl, rfl, rfl, rfl, rfl⟩

theorem checkTextCollision_score (s : GameState) (pos : Position) :
    (checkTextCollision s pos).score =
      s.score + commentBonus s.doc s.singleCommentTokens s.pointsPerFood pos := by
  simp only [checkTextCollision, commentBonus]
  repeat' split
  all_goals simp

theorem checkTextCollision_hiddenLines_mem (s : GameState) (pos : Position) (l : Int)
    (hl : l ∈ (checkTextCollision s pos).hiddenLines) :
    l ∈ s.hiddenLines ∨ (l = pos.line ∧ isBlank (s.doc.lineAt pos.line) = false) := by
  simp only [checkTextCollision] at hl
  split at hl
  · exact Or.inl hl
  · split at hl
    · exact Or.inl hl
    · rename_i htrim
      split at hl
      · split at hl
        · rcases hiddenAdd_mem _ _ _ hl with h | h
          · exact Or.inl h
          · exact Or.inr ⟨h, by simpa using htrim⟩
        · rcases hiddenAdd_mem _ _ _ hl with h | h
          · exact Or.inl h
          · exact Or.inr ⟨h, by simpa using htrim⟩
      · exact Or.inl hl

theorem spawnFoodLoop_spec (snake : List Position) (fb : Position) (l : List Position) :
    (spawnFoodLoop snake fb l ∈ l ∧
       checkCollision snake (spawnFoodLoop snake fb l) = false) ∨
    (spawnFoodLoop snake fb l = fb ∧ ∀ c ∈ l, checkCollision snake c = true) := by
  induction l with
  | nil => exact Or.inr ⟨rfl, by simp⟩
  | cons c rest ih =>
    by_cases hc : checkCollision snake c = true
    · rw [show spawnFoodLoop snake fb (c :: rest) = spawnFoodLoop snake fb rest by
        simp [spawnFoodLoop, hc]]
      rcases ih with ⟨h1, h2⟩ | ⟨h1, h2⟩
      · exact Or.inl ⟨List.mem_cons_of_mem _ h1, h2⟩
      · refine Or.inr ⟨h1, ?_⟩
        intro x hx
        rcases List.mem_cons.mp hx with hx | hx
        · rw [hx]; exact hc
        · exact h2 x hx
    · have hc2 : checkCollision snake c = false := by
        cases h : checkCollision snake c
        · rfl
        · exact absurd h hc
      rw [show spawnFoodLoop snake fb (c :: rest) = c by simp [spawnFoodLoop, hc2]]
      exact Or.inl ⟨List.mem_cons_self c rest, hc2⟩

theorem update_preserves (cands : Nat → Position) (s : GameState) :
    (update cands s).doc = s.doc ∧
    (update cands s).maxColumn = s.maxColumn ∧
    (update cands s).pointsPerFood = s.pointsPerFood ∧
    (update cands s).singleCommentTokens = s.singleCommentTokens := by
  simp only [update]
  split
  · exact ⟨rfl, rfl, rfl, rfl⟩
  · split
    · exact ⟨rfl, rfl, rfl, rfl⟩
    · split
      · split
        · obtain ⟨h1, h2, _, _, _, h6, _, _, h9⟩ := checkTextCollision_preserves _ _
          exact ⟨h1, h2, h6, h9⟩
        · obtain ⟨h1, h2, _, _, _, h6, _, _, h9⟩ := checkTextCollision_preserves _ _
          exact ⟨h1, h2, h6, h9⟩
      · obtain ⟨h1, h2, _, _, _, h6, _, _, h9⟩ := checkTextCollision_preserves _ _
        exact ⟨h1, h2, h6, h9⟩

theorem update_hiddenLines_mem (cands : Nat → Position) (s : GameState) (l : Int)
    (hl : l ∈ (update cands s).hiddenLines) :
    l ∈ s.hiddenLines ∨ isBlank (s.doc.lineAt l) = false := by
  simp only [update] at hl
  split at hl
  · exact Or.inl hl
  · split at hl
    · exact Or.inl hl
    · split at hl
      · split at hl
        · rcases checkTextCollision_hiddenLines_mem _ _ _ hl with h | ⟨he, ht⟩
          · exact Or.inl h
          · subst he; exact Or.inr ht
        · rcases checkTextCollision_hiddenLines_mem _ _ _ hl with h | ⟨he, ht⟩
          · exact Or.inl h
          · subst he; exact Or.inr ht
      · rcases checkTextCollision_hiddenLines_mem _ _ _ hl with h | ⟨he, ht⟩
        · exact Or.inl h
        · subst he; exact Or.inr ht

/-- Claim C1, counterexample: the claim quantifies over every game state, but
in a paused state whose candidate head cell collides with the body, one tick
is a no-op — the session is not terminated (`isRunning` stays `true`), so
"advancing one tick terminates the session" fails. -/
theorem C1_counterexample :
    pausedCollisionState.isPaused = true ∧
    checkCollision pausedCollisionState.snake
      (getNewHead pausedCollisionState.doc pausedCollisionState.maxColumn
        pausedCollisionState.direction (pausedCollisionState.snake.headD ⟨0, 0⟩)) = true ∧
    (update (fun _ => (⟨0, 0⟩ : Position)) pausedCollisionState).isRunning = true := by
  decide

/-- Claim C1, amended: for every running, non-paused state, if the candidate
head cell computed for the current heading coincides with any cell of the
pre-move snake body (tail included), one tick terminates the session and
leaves the snake body, score, food cell, and hidden-lines set unchanged. -/
theorem C1_amended (cands : Nat → Position) (s : GameState)
    (hr : s.isRunning = true) (hp : s.isPaused = false)
    (hc : checkCollision s.snake
      (getNewHead s.doc s.maxColumn s.direction (s.snake.headD ⟨0, 0⟩)) = true) :
    (update cands s).isRunning = false ∧
    (update cands s).snake = s.snake ∧
    (update cands s).score = s.score ∧
    (update cands s).food = s.food ∧
    (update cands s).hiddenLines = s.hiddenLines := by
  simp [update, gameOver, hr, hp, hc, -List.headD_eq_head?_getD]

/-- Witness for C1: the amended claim at a concrete running state whose
candidate head cell lies on the body. -/
theorem C1_witness :
    runCollisionState.isRunning = true ∧ runCollisionState.isPaused = false ∧
    (update (fun _ => (⟨0, 0⟩ : Position)) runCollisionState).isRunning = false ∧
    (update (fun _ => (⟨0, 0⟩ : Position)) runCollisionState).snake = runCollisionState.snake :=
  ⟨rfl, rfl,
    (C1_amended (fun _ => (⟨0, 0⟩ : Position)) runCollisionState rfl rfl (by decide)).1,
    (C1_amended (fun _ => (⟨0, 0⟩ : Position)) runCollisionState rfl rfl (by decide)).2.1⟩

/-- Claim C4: a directional input command leaves the heading unchanged when
the game is not running, or is paused, or the requested heading is the exact
opposite of the current heading (hence a reversal is always rejected while
running). -/
theorem C4_direction_rejection (s : GameState) (d : Direction)
    (h : s.isRunning = false ∨ s.isPaused = true ∨ s.direction = d.opposite) :
    changeDirection s d = s := by
  unfold changeDirection
  split
  · rename_i hcond
    obtain ⟨h1, h2, h3⟩ := hcond
    rcases h with h | h | h
    · rw [h1] at h; exact absurd h (by decide)
    · rw [h2] at h; exact absurd h (by decide)
    · exact absurd h h3
  · rfl

/-- Witness for C4: a reversal request (left while heading right... here the
opposite of the current heading) on a concrete running state is a no-op, and
so is any request on a non-running state. -/
theorem C4_witness :
    runCollisionState.direction = Direction.right.opposite ∧
    changeDirection runCollisionState .right = runCollisionState ∧
    terminatedHiddenState.isRunning = false ∧
    changeDirection terminatedHiddenState .up = terminatedHiddenState :=
  ⟨rfl,
    C4_direction_rejection runCollisionState .right (Or.inr (Or.inr rfl)),
    rfl,
    C4_direction_rejection terminatedHiddenState .up (Or.inl rfl)⟩

/-- Claim C5, counterexample: the claim says an expiry callback firing after
termination performs no hidden-lines mutation and no refresh; on a concrete
terminated state holding line 2, the callback for line 2 does mutate the set
(it removes the line) and does request a render. -/
theorem C5_counterexample :
    terminatedHiddenState.isRunning = false ∧
    (hiddenLineExpiry 2 terminatedHiddenState).1.hiddenLines ≠
      terminatedHiddenState.hiddenLines ∧
    (hiddenLineExpiry 2 terminatedHiddenState).2 = true := by
  decide

/-- Claim C5, amended: a deferred hidden-line-expiry callback has no
terminated-session guard: even after the session has terminated it still
deletes its line from the hidden-lines set and triggers a presentation
refresh. -/
theorem C5_amended (s : GameState) (line : Int) (_h : s.isRunning = false) :
    (hiddenLineExpiry line s).2 = true ∧
    (hiddenLineExpiry line s).1.hiddenLines =
      s.hiddenLines.filter (fun l => decide (l ≠ line)) :=
  ⟨rfl, rfl⟩

/-- Witness for C5: the amended claim at the concrete terminated state. -/
theorem C5_witness :
    terminatedHiddenState.isRunning = false ∧
    (hiddenLineExpiry 2 terminatedHiddenState).2 = true ∧
    (hiddenLineExpiry 2 terminatedHiddenState).1.hiddenLines =
      terminatedHiddenState.hiddenLines.filter (fun l => decide (l ≠ 2)) :=
  ⟨rfl, (C5_amended terminatedHiddenState 2 rfl).1, (C5_amended terminatedHiddenState 2 rfl).2⟩

/-- Claim C6: `pointsPerFood = max(1, floor(lineCount / 10))` — 100 lines
give 10, 50 give 5, 9 give 1 — and no game operation (tick, direction
change, pause toggle, hidden-line expiry) ever changes `pointsPerFood`, so
the value computed at session start is held constant for the session. -/
theorem C6_pointsPerFood_constant :
    calculatePoints 100 = 10 ∧ calculatePoints 50 = 5 ∧ calculatePoints 9 = 1 ∧
    (∀ cands s, (update cands s).pointsPerFood = s.pointsPerFood) ∧
    (∀ s d, (changeDirection s d).pointsPerFood = s.pointsPerFood) ∧
    (∀ s, (togglePause s).pointsPerFood = s.pointsPerFood) ∧
    (∀ l s, ((hiddenLineExpiry l s).1).pointsPerFood = s.pointsPerFood) ∧
    (∀ s, (gameOver s).pointsPerFood = s.pointsPerFood) := by
  refine ⟨by decide, by decide, by decide, ?_, ?_, ?_, ?_, ?_⟩
  · intro cands s
    exact (update_preserves cands s).2.2.1
  · intro s d
    unfold changeDirection
    split <;> rfl
  · intro s
    unfold togglePause
    split <;> rfl
  · intro l s
    rfl
  · intro s
    rfl

/-- Claim C9: while the session is paused, a tick has no effect at all — the
state after `update` is identical to the state before it. -/
theorem C9_paused_tick_noop (cands : Nat → Position) (s : GameState)
    (hp : s.isPaused = true) :
    update cands s = s := by
  simp [update, hp]

/-- Witness for C9: a tick on a concrete paused state returns it unchanged. -/
theorem C9_witness :
    pausedCollisionState.isPaused = true ∧
    update (fun _ => (⟨0, 0⟩ : Position)) pausedCollisionState = pausedCollisionState :=
  ⟨rfl, C9_paused_tick_noop (fun _ => (⟨0, 0⟩ : Position)) pausedCollisionState rfl⟩

/-- Claim C2, counterexample: on a concrete running state whose candidate
head cell equals the food cell, does not collide with the snake, and lies on
a character inside a recognized single-line comment, the tick increases the
score by `pointsPerFood + floor(pointsPerFood / 2)` — not by exactly
`pointsPerFood` as the claim states. -/
theorem C2_counterexample :
    commentCaptureState.isRunning = true ∧
    commentCaptureState.isPaused = false ∧
    commentCaptureState.food = some ⟨0, 4⟩ ∧
    getNewHead commentCaptureState.doc commentCaptureState.maxColumn
      commentCaptureState.direction (commentCaptureState.snake.headD ⟨0, 0⟩) = ⟨0, 4⟩ ∧
    checkCollision commentCaptureState.snake ⟨0, 4⟩ = false ∧
    (update (fun _ => (⟨1, 0⟩ : Position)) commentCaptureState).score ≠
      commentCaptureState.score + commentCaptureState.pointsPerFood := by
  decide

/-- Claim C2, amended: for every running, non-paused state in which the
candidate head cell does not collide with the snake, a capture tick (the
candidate equals the food cell) increases the score by exactly
`pointsPerFood` plus the comment bonus of the head cell (which is
`floor(pointsPerFood / 2)` when that cell holds non-whitespace text inside a
recognized single-line comment and zero otherwise), increases the snake
length by exactly one, and assigns the food cell spawned against the grown
snake; a non-capture tick leaves the snake length unchanged. -/
theorem C2_amended (cands : Nat → Position) (s : GameState) (nh : Position)
    (hnh : nh = getNewHead s.doc s.maxColumn s.direction (s.snake.headD ⟨0, 0⟩))
    (hr : s.isRunning = true) (hp : s.isPaused = false)
    (hnc : checkCollision s.snake nh = false) :
    (∀ f, s.food = some f → nh = f →
       (update cands s).score = s.score + s.pointsPerFood +
         commentBonus s.doc s.singleCommentTokens s.pointsPerFood nh ∧
       (update cands s).snake.length = s.snake.length + 1 ∧
       (update cands s).food = some (spawnFood s.doc (nh :: s.snake) cands)) ∧
    ((s.food = none ∨ ∃ f, s.food = some f ∧ nh ≠ f) →
       (update cands s).snake.length = s.snake.length) := by
  constructor
  · intro f hf hcap
    subst hcap
    simp only [update, hr, hp, ← hnh, hf, hnc]
    rw [if_neg (by simp), if_neg (by simp), if_pos trivial]
    refine ⟨?_, ?_, ?_⟩
    · rw [checkTextCollision_score]
    · rw [(checkTextCollision_preserves _ _).2.2.1]
      simp
    · rw [(checkTextCollision_preserves _ _).2.2.2.2.1]
  · intro hcase
    rcases hcase with hf | ⟨f, hf, hne⟩
    · simp only [update, hr, hp, ← hnh, hf, hnc]
      rw [if_neg (by simp), if_neg (by simp)]
      rw [(checkTextCollision_preserves _ _).2.2.1]
      simp
    · simp only [update, hr, hp, ← hnh, hf, hnc]
      rw [if_neg (by simp), if_neg (by simp), if_neg hne]
      rw [(checkTextCollision_preserves _ _).2.2.1]
      simp

/-- Witness for C2: the amended claim at a concrete capture state with no
comment patterns, where the tick adds exactly `pointsPerFood` (the bonus is
zero) and grows the snake by one. -/
theorem C2_witness :
    (update (fun _ => (⟨1, 0⟩ : Position)) plainCaptureState).score =
      plainCaptureState.score + plainCaptureState.pointsPerFood +
        commentBonus plainCaptureState.doc plainCaptureState.singleCommentTokens
          plainCaptureState.pointsPerFood ⟨0, 4⟩ ∧
    (update (fun _ => (⟨1, 0⟩ : Position)) plainCaptureState).snake.length =
      plainCaptureState.snake.length + 1 :=
  ⟨((C2_amended (fun _ => (⟨1, 0⟩ : Position)) plainCaptureState ⟨0, 4⟩ (by decide) rfl rfl
      (by decide)).1 ⟨0, 4⟩ rfl rfl).1,
   ((C2_amended (fun _ => (⟨1, 0⟩ : Position)) plainCaptureState ⟨0, 4⟩ (by decide) rfl rfl
      (by decide)).1 ⟨0, 4⟩ rfl rfl).2.1⟩

/-- Claim C3: for every heading and every head cell with line index in
`[0, lineCount)` and non-negative column, the new head cell has non-negative
line and column and a line index strictly below the grid line count — in the
current movement rule and in the older build variant — and the viewport
width `maxColumn` computed at start is always at least one (in fact at least
80 or exactly 120), justifying the `1 ≤ maxColumn` hypothesis. -/
theorem C3_wrap_invariant (doc : Document) (maxColumn : Int) (dir : Direction) (head : Position)
    (h0 : 0 ≤ head.line) (h1 : head.line < doc.lineCount) (h2 : 0 ≤ head.char)
    (hm : 1 ≤ maxColumn) :
    (0 ≤ (getNewHead doc maxColumn dir head).line ∧
     (getNewHead doc maxColumn dir head).line < doc.lineCount ∧
     0 ≤ (getNewHead doc maxColumn dir head).char) ∧
    (0 ≤ (getNewHeadV0 doc dir head).line ∧
     (getNewHeadV0 doc dir head).line < doc.lineCount ∧
     0 ≤ (getNewHeadV0 doc dir head).char) ∧
    (∀ v, 1 ≤ calculateViewportWidth v) := by
  simp only [Document.lineCount] at h1 ⊢
  refine ⟨?_, ?_, ?_⟩
  · cases dir <;>
      simp only [getNewHead, Document.lineCount] <;>
      split_ifs <;>
      refine ⟨?_, ?_, ?_⟩ <;>
      dsimp only <;>
      omega
  · cases dir <;>
      simp only [getNewHeadV0, Document.lineCount] <;>
      split_ifs <;>
      refine ⟨?_, ?_, ?_⟩ <;>
      dsimp only <;>
      omega
  · intro v
    cases v <;> simp only [calculateViewportWidth] <;> omega

/-- Witness for C3: the wrap invariant at a concrete grid, heading and head
cell. -/
theorem C3_witness :
    (0 ≤ (getNewHead ⟨["ab"]⟩ 120 .up ⟨0, 1⟩).line ∧
     (getNewHead ⟨["ab"]⟩ 120 .up ⟨0, 1⟩).line < Document.lineCount ⟨["ab"]⟩ ∧
     0 ≤ (getNewHead ⟨["ab"]⟩ 120 .up ⟨0, 1⟩).char) ∧
    (0 ≤ (getNewHeadV0 ⟨["ab"]⟩ .up ⟨0, 1⟩).line ∧
     (getNewHeadV0 ⟨["ab"]⟩ .up ⟨0, 1⟩).line < Document.lineCount ⟨["ab"]⟩ ∧
     0 ≤ (getNewHeadV0 ⟨["ab"]⟩ .up ⟨0, 1⟩).char) ∧
    (∀ v, 1 ≤ calculateViewportWidth v) :=
  C3_wrap_invariant ⟨["ab"]⟩ 120 .up ⟨0, 1⟩ (by decide) (by decide) (by decide) (by decide)

/-- Claim C7: the text-collision check never adds a line whose trimmed text
is empty to the hidden-lines set — it returns the hidden-lines set unchanged
on such a line — and therefore every tick preserves the invariant that the
hidden-lines set contains no blank line. -/
theorem C7_blank_line_never_hidden :
    (∀ s pos, isBlank (s.doc.lineAt pos.line) = true →
       (checkTextCollision s pos).hiddenLines = s.hiddenLines) ∧
    (∀ cands s, (∀ l ∈ s.hiddenLines, isBlank (s.doc.lineAt l) = false) →
       ∀ l ∈ (update cands s).hiddenLines, isBlank (s.doc.lineAt l) = false) := by
  constructor
  · intro s pos h
    simp [checkTextCollision, h]
  · intro cands s hinv l hl
    rcases update_hiddenLines_mem cands s l hl with h | h
    · exact hinv l h
    · exact h

/-- Claim C8: the food-spawn routine terminates after at most 100 rejection
samples — either some attempt `i < 100` proposes a cell free of the snake
and that cell becomes the food, or all 100 attempts collide and the
deterministic fallback cell `(floor(lineCount / 2), 10)` is assigned. -/
theorem C8_spawn_bounded_fallback (doc : Document) (snake : List Position)
    (cands : Nat → Position) :
    spawnFoodFallback doc = { line := doc.lineCount / 2, char := 10 } ∧
    ((∃ i, i < 100 ∧ checkCollision snake (cands i) = false ∧
        spawnFood doc snake cands = cands i) ∨
     (spawnFood doc snake cands = spawnFoodFallback doc ∧
      ∀ i, i < 100 → checkCollision snake (cands i) = true)) := by
  refine ⟨rfl, ?_⟩
  rcases spawnFoodLoop_spec snake (spawnFoodFallback doc) ((List.range 100).map cands)
    with ⟨h1, h2⟩ | ⟨h1, h2⟩
  · left
    rcases List.mem_map.mp h1 with ⟨i, hi, he⟩
    exact ⟨i, List.mem_range.mp hi, he ▸ h2, he.symm⟩
  · right
    refine ⟨h1, ?_⟩
    intro i hi
    exact h2 _ (List.mem_map_of_mem cands (List.mem_range.mpr hi))

/-- Claim C10: the spawned food cell is disjoint from the snake whenever it
comes from a successful sampling attempt (the only other outcome is the
fallback cell), and the fallback is assigned without an occupancy check: on
a concrete snake occupying the fallback cell, with every sampling attempt
colliding, the spawned food lies on the snake. -/
theorem C10_fallback_unchecked :
    (∀ doc snake cands, checkCollision snake (spawnFood doc snake cands) = false ∨
       spawnFood doc snake cands = spawnFoodFallback doc) ∧
    spawnFood ⟨["0123456789012"]⟩ [⟨0, 5⟩, ⟨0, 10⟩] (fun _ => ⟨0, 5⟩) = ⟨0, 10⟩ ∧
    checkCollision [⟨0, 5⟩, ⟨0, 10⟩] (⟨0, 10⟩ : Position) = true := by
  refine ⟨?_, by decide, by decide⟩
  intro doc snake cands
  rcases spawnFoodLoop_spec snake (spawnFoodFallback doc) ((List.range 100).map cands)
    with ⟨_, h2⟩ | ⟨h1, _⟩
  · exact Or.inl h2
  · exact Or.inr h1

end SnakeVSCode
